import Mathlib

/-!
Shallow embedding of the Double-D-Brew inventory application (`src/app.py`).

The application is a Flask + SQLite inventory tracker.  We embed:

* the `Product` model and the SQLAlchemy-backed store (a list of products
  with an auto-incrementing id and a unique constraint on `sku`),
* the mutating routes `add_product`, `edit_product`, `delete_product`,
  `adjust_stock` (the POST branches, which are the store operations),
* the CSV export route `export_csv` (temp-file write, `os.replace`,
  comparison against `last_inventory.csv`, saving the reference copy),
* the row-level comparison route `download_latest_csv` (selection of the
  two most recent `.csv` files from the `exports` directory and the
  positional row diff with its status classification).

Python `float` prices are modelled as `Rat`; Python `int` as `Int`/`Nat`.
The content of a CSV file is modelled as its parsed row list
(`List (List String)`), which is faithful for byte-for-byte comparison of
files produced by the deterministic `csv.writer`.
-/

/-- The `Product` database model (`src/app.py`, class `Product`). -/
structure Product where
  id : Nat
  sku : String
  name : String
  description : String
  price : Rat
  stock : Int
  reorder_threshold : Int
  deriving DecidableEq, Repr

/-- The persisted product store: the `product` table plus the
auto-increment counter that SQLAlchemy/SQLite uses for `id`. -/
structure Store where
  products : List Product
  nextId : Nat
  deriving DecidableEq, Repr

/-- The error outcomes the routes surface (flash message + rollback). -/
inductive StoreError where
  | duplicateSku
  | notFound
  deriving DecidableEq, Repr

/-- POST branch of `add_product` (`src/app.py:198-214`): builds the product
from the form fields and commits; the unique constraint on `sku` raises
`IntegrityError`, on which the session is rolled back and the store is
left unchanged. -/
def add_product (s : Store) (sku name description : String) (price : Rat)
    (stock reorder_threshold : Int) : Except StoreError Store :=
  if s.products.any (fun q => q.sku = sku) then
    .error .duplicateSku
  else
    .ok { products := s.products ++
            [{ id := s.nextId, sku := sku, name := name,
               description := description, price := price, stock := stock,
               reorder_threshold := reorder_threshold }],
          nextId := s.nextId + 1 }

/-- POST branch of `edit_product` (`src/app.py:231-248`):
`get_or_404` fails when the id is absent; otherwise all six fields are
overwritten and committed, with rollback (store unchanged) when the new
`sku` collides with the SKU of another product. -/
def edit_product (s : Store) (product_id : Nat) (sku name description : String)
    (price : Rat) (stock reorder_threshold : Int) : Except StoreError Store :=
  if s.products.any (fun q => q.id = product_id) then
    if s.products.any (fun q => q.id ≠ product_id ∧ q.sku = sku) then
      .error .duplicateSku
    else
      .ok { s with products := s.products.map (fun q =>
              if q.id = product_id then
                { q with sku := sku, name := name, description := description,
                         price := price, stock := stock,
                         reorder_threshold := reorder_threshold }
              else q) }
  else .error .notFound

/-- Route `delete_product` (`src/app.py:265-271`): `get_or_404` then delete. -/
def delete_product (s : Store) (product_id : Nat) : Except StoreError Store :=
  if s.products.any (fun q => q.id = product_id) then
    .ok { s with products := s.products.filter (fun q => q.id ≠ product_id) }
  else .error .notFound

/-- POST branch of `adjust_stock` (`src/app.py:273-282`):
`p.stock = max(0, p.stock + adj)`; the `reason` form field is only flashed,
never persisted. -/
def adjust_stock (s : Store) (product_id : Nat) (adjust : Int)
    (reason : String) : Except StoreError Store :=
  if s.products.any (fun q => q.id = product_id) then
    .ok { s with products := s.products.map (fun q =>
            if q.id = product_id then
              { q with stock := max 0 (q.stock + adjust) }
            else q) }
  else .error .notFound

/-- Filter of the `low_stock` route (`src/app.py:294-296`):
`Product.stock <= Product.reorder_threshold`. -/
def low_stock (s : Store) : List Product :=
  s.products.filter (fun q => q.stock ≤ q.reorder_threshold)

/-- The sample data seeded by `init_db` (`src/app.py:67-76`). -/
def initStore : Store :=
  { products :=
      [{ id := 1, sku := "DBR-001", name := "Espresso Beans 250g",
         description := "Dark roast", price := 250, stock := 20,
         reorder_threshold := 5 },
       { id := 2, sku := "DBR-002", name := "Milk (1L)",
         description := "Fresh milk", price := 80, stock := 10,
         reorder_threshold := 3 },
       { id := 3, sku := "DBR-003", name := "Cup (12oz)",
         description := "Disposable cup", price := (5 : Rat) / 2, stock := 200,
         reorder_threshold := 50 }],
    nextId := 4 }

/-!
## CSV export (`export_csv`, `src/app.py:326-376`)

The route writes the snapshot to `inventory_temp.csv`, `os.replace`s it
onto `inventory.csv` (removing the temp file and reporting a lock when
the destination is held open, i.e. `PermissionError`), compares the new
content with `last_inventory.csv` when that exists, and finally rewrites
`last_inventory.csv` with the new content.
-/

/-- File-system state touched by the CSV routes.  File contents are the
parsed CSV row lists; `destLocked` models the destination file being held
open by another process (`PermissionError` from `os.replace`). -/
structure FsState where
  /-- Content of `inventory.csv`, `none` when absent. -/
  inventoryCsv : Option (List (List String))
  /-- Content of `last_inventory.csv` (`LAST_CSV_PATH`), the last-known-good copy. -/
  lastCsv : Option (List (List String))
  /-- Content of `inventory_temp.csv`, present only transiently. -/
  tempCsv : Option (List (List String))
  /-- Files of the `exports` directory, as (filename, content) pairs. -/
  exports : List (String × List (List String))
  /-- Whether `os.replace` onto `inventory.csv` raises `PermissionError`. -/
  destLocked : Bool
  deriving DecidableEq, Repr

/-- Outcome reported by `export_csv`: the lock error page, or one of the
three comparison messages. -/
inductive ExportResult where
  /-- Error page shown after `PermissionError` (cannot update CSV). -/
  | snapshotLocked
  /-- Message for the first export (no `last_inventory.csv` existed). -/
  | firstExport
  /-- Message when nothing changed since the last export. -/
  | noChanges
  /-- Message when changes were detected. -/
  | changesDetected
  deriving DecidableEq, Repr

/-- Serialization of the product list done by `export_csv`
(`src/app.py:334-338`): header row then one row per product in store
iteration order. -/
def snapshotRows (products : List Product) : List (List String) :=
  ["SKU", "Name", "Stock", "Price"] ::
    products.map (fun p => [p.sku, p.name, toString p.stock, toString p.price])

/-- The `export_csv` route (`src/app.py:326-376`). -/
def export_csv (fs : FsState) (products : List Product) :
    ExportResult × FsState :=
  let newCsv := snapshotRows products
  -- write to the temporary file first
  let fsT : FsState := { fs with tempCsv := some newCsv }
  if fs.destLocked then
    -- os.replace raised PermissionError: remove the temp file, report
    (.snapshotLocked, { fsT with tempCsv := none })
  else
    -- os.replace succeeded: temp renamed onto inventory.csv
    let fs1 : FsState := { fsT with tempCsv := none, inventoryCsv := some newCsv }
    let result : ExportResult :=
      match fs1.lastCsv with
      | none => .firstExport
      | some oldCsv => if newCsv = oldCsv then .noChanges else .changesDetected
    -- save the new content as the reference for next time
    (result, { fs1 with lastCsv := some newCsv })

/-!
## Row-level comparison (`download_latest_csv`, `src/app.py:382-438`)

The route lists the `.csv` files of the `exports` directory, sorts the
names descending, reads the first as the current and the second as the
previous snapshot, and emits one output row per index up to the longer
file, classifying each aligned pair.
-/

/-- The placeholder used for a missing row: `["", "", "", ""]`
(`src/app.py:417-418`). -/
def blankRow : List String := ["", "", "", ""]

/-- Status classification of one aligned row pair
(`src/app.py:420-432`).  Note the Python truthiness: the branch guard
`prev_row and curr_row and len(prev_row) >= 4 and len(curr_row) >= 4`
tests that both lists are non-empty and have at least four fields, and
`any(row)` tests for some non-empty string field. -/
def rowStatus (prev_row curr_row : List String) : String :=
  if prev_row ≠ [] ∧ curr_row ≠ [] ∧ 4 ≤ prev_row.length ∧ 4 ≤ curr_row.length then
    if prev_row ≠ curr_row then
      if prev_row.getD 2 "" ≠ curr_row.getD 2 "" ∨
         prev_row.getD 3 "" ≠ curr_row.getD 3 "" then "CHANGED"
      else "UPDATED"
    else "UNCHANGED"
  else if curr_row.any (fun c => c ≠ "") then "NEW"
  else if prev_row.any (fun c => c ≠ "") then "REMOVED"
  else ""

/-- The comparison loop of `download_latest_csv` (`src/app.py:415-434`):
one output row per index in `0 .. max(len(previous), len(current))`,
each the previous row, the current row and the status. -/
def diffRows (previous_data current_data : List (List String)) :
    List (List String) :=
  (List.range (max previous_data.length current_data.length)).map (fun i =>
    let prev_row := previous_data.getD i blankRow
    let curr_row := current_data.getD i blankRow
    prev_row ++ curr_row ++ [rowStatus prev_row curr_row])

/-- Header of the comparison CSV (`src/app.py:409-413`). -/
def compareHeader : List String :=
  ["Previous SKU", "Previous Name", "Previous Stock", "Previous Price",
   "Current SKU", "Current Name", "Current Stock", "Current Price",
   "Status"]

/-- Model of the Python `str.endswith` method, as a suffix test on the
character sequence. -/
def strEndsWith (s post : String) : Bool :=
  post.data.isSuffixOf s.data

/-- Lexicographic order on character sequences by code point: the `<`
comparison of Python strings. -/
def charListLt : List Char → List Char → Bool
  | [], [] => false
  | [], _ :: _ => true
  | _ :: _, [] => false
  | a :: as, b :: bs =>
    if a.val.toNat < b.val.toNat then true
    else if b.val.toNat < a.val.toNat then false
    else charListLt as bs

/-- Model of the `<` comparison of Python strings. -/
def strLt (a b : String) : Bool := charListLt a.data b.data

/-- Stable insertion into a descending list, used to model the Python
call sorted(..., reverse=True) over filenames. -/
def insertDescBy (key : α → String) (x : α) : List α → List α
  | [] => [x]
  | y :: ys =>
    if strLt (key y) (key x) then x :: y :: ys else y :: insertDescBy key x ys

/-- Model of the descending sort over filenames, carrying the content of
each file along with its name. -/
def sortDescBy (key : α → String) : List α → List α
  | [] => []
  | x :: xs => insertDescBy key x (sortDescBy key xs)

/-- Snapshot selection of `download_latest_csv` (`src/app.py:387-403`):
the `.csv` files sorted descending by name; the first is the current and
the second (when present) the previous snapshot; a missing file reads as
the empty row list. -/
def selectSnapshots (exportFiles : List (String × List (List String))) :
    List (List String) × List (List String) :=
  let csv_files := sortDescBy Prod.fst
    (exportFiles.filter (fun f => strEndsWith f.1 ".csv"))
  (csv_files.getD 0 ("", []) |>.2, csv_files.getD 1 ("", []) |>.2)

/-- The `download_latest_csv` route (`src/app.py:382-438`): the emitted
comparison CSV, header row included. -/
def download_latest_csv (exportFiles : List (String × List (List String))) :
    List (List String) :=
  let snaps := selectSnapshots exportFiles
  compareHeader :: diffRows snaps.2 snaps.1

/-- The non-negativity invariant of §3 of the spec. -/
def stocksNonneg (s : Store) : Prop := ∀ p ∈ s.products, 0 ≤ p.stock

/-- The store the caller observes after an operation: the new store on
success, the unchanged (rolled-back) store on failure. -/
def afterOp (s : Store) : Except StoreError Store → Store
  | .ok s' => s'
  | .error _ => s

/-!
## Theorems
-/

theorem any_id_of_mem {s : Store} {pid : Nat} (p : Product) (hp : p ∈ s.products)
    (hid : p.id = pid) : s.products.any (fun q => q.id = pid) = true :=
  List.any_eq_true.2 ⟨p, hp, by simp [hid]⟩

/-- C5: after `adjust_stock` on an existing product, the stock of that
product equals `max 0 (stockBefore + delta)`; decreases past zero are clamped,
not rejected. -/
theorem adjust_stock_clamps (s : Store) (pid : Nat) (delta : Int)
    (reason : String) (i : Nat) (hi : i < s.products.length)
    (hid : s.products[i].id = pid) :
    ∃ s', adjust_stock s pid delta reason = Except.ok s' ∧
      ∃ hi' : i < s'.products.length,
        s'.products[i].stock = max 0 (s.products[i].stock + delta) := by
  have hany : s.products.any (fun q => q.id = pid) = true :=
    any_id_of_mem s.products[i] (s.products.getElem_mem hi) hid
  refine ⟨_, by rw [adjust_stock, if_pos hany], ?_⟩
  refine ⟨by simpa using hi, ?_⟩
  simp [List.getElem_map, hid]

/-- C5 witness: adjusting product 1 of the seeded store by −100 clamps its
stock (20) to 0. -/
theorem adjust_stock_clamps_witness :
    ∃ s', adjust_stock initStore 1 (-100) "damaged" = Except.ok s' ∧
      ∃ hi' : 0 < s'.products.length, s'.products[0].stock = 0 := by
  obtain ⟨s', hs', hi', hstock⟩ :=
    adjust_stock_clamps initStore 1 (-100) "damaged" 0 (by decide) (by decide)
  exact ⟨s', hs', hi', by rw [hstock]; decide⟩

/-- C10: `adjust_stock` is independent of the `reason` text (it is only
flashed, never persisted) and modifies nothing but the `stock` field of
the target product: every product keeps its id, sku, name, description, price
and reorder threshold, and products with a different id are untouched. -/
theorem adjust_stock_frame (s : Store) (pid : Nat) (delta : Int)
    (r₁ r₂ : String) :
    adjust_stock s pid delta r₁ = adjust_stock s pid delta r₂ ∧
    ∀ s', adjust_stock s pid delta r₁ = Except.ok s' →
      s'.products.length = s.products.length ∧
      ∀ i (hi : i < s.products.length) (hi' : i < s'.products.length),
        s'.products[i].id = s.products[i].id ∧
        s'.products[i].sku = s.products[i].sku ∧
        s'.products[i].name = s.products[i].name ∧
        s'.products[i].description = s.products[i].description ∧
        s'.products[i].price = s.products[i].price ∧
        s'.products[i].reorder_threshold = s.products[i].reorder_threshold ∧
        (s.products[i].id ≠ pid → s'.products[i] = s.products[i]) := by
  refine ⟨rfl, ?_⟩
  intro s' hs'
  rw [adjust_stock] at hs'
  by_cases hany : s.products.any (fun q => q.id = pid) = true
  · rw [if_pos hany] at hs'
    obtain rfl : _ = s' := Except.ok.inj hs'
    refine ⟨by simp, ?_⟩
    intro i hi hi'
    by_cases hid : s.products[i].id = pid <;>
      simp [List.getElem_map, hid]
  · rw [if_neg hany] at hs'
    exact absurd hs' (by simp)

/-- C10 witness: adjusting product 1 of the seeded store by −3 under two
different reasons gives the same store, of unchanged length, with product
2 (index 1) untouched. -/
theorem adjust_stock_frame_witness :
    adjust_stock initStore 1 (-3) "breakage" = adjust_stock initStore 1 (-3) "recount" ∧
    ∃ s', adjust_stock initStore 1 (-3) "breakage" = Except.ok s' ∧
      s'.products.length = initStore.products.length ∧
      ∃ hi' : 1 < s'.products.length,
        s'.products[1] = initStore.products[1] := by
  obtain ⟨heq, hfr⟩ := adjust_stock_frame initStore 1 (-3) "breakage" "recount"
  have hok : adjust_stock initStore 1 (-3) "breakage" =
      Except.ok (afterOp initStore (adjust_stock initStore 1 (-3) "breakage")) := rfl
  obtain ⟨hlen, hpt⟩ := hfr _ hok
  refine ⟨heq, _, hok, hlen, by rw [hlen]; decide, ?_⟩
  exact ((hpt 1 (by decide) (by rw [hlen]; decide)).2.2.2.2.2.2 (by decide))

/-- C4 counterexample: `add_product` performs no validation of the stock
form field (the form field is parsed with int() and stored unchecked), so creating a product
with stock −5 from the seeded store succeeds and yields a reachable state
containing a product with negative stock. -/
theorem add_product_negative_stock :
    (add_product initStore "DBR-004" "Gift Card" "" 50 (-5) 5).map
      (fun s' => s'.products.any (fun p => p.stock < 0)) = Except.ok true := by
  rfl

/-- C4 amended: `adjust_stock` and `delete_product` preserve
non-negativity of every stock unconditionally (`adjust_stock` clamps at
zero), but `add_product` and `edit_product` store the supplied stock
unvalidated, so they preserve the invariant only when the supplied stock
is itself non-negative. -/
theorem stock_nonneg_preservation (s : Store) (h : stocksNonneg s) :
    (∀ pid delta reason s',
      adjust_stock s pid delta reason = Except.ok s' → stocksNonneg s') ∧
    (∀ pid s', delete_product s pid = Except.ok s' → stocksNonneg s') ∧
    (∀ sku name desc price stock th s', 0 ≤ stock →
      add_product s sku name desc price stock th = Except.ok s' →
        stocksNonneg s') ∧
    (∀ pid sku name desc price stock th s', 0 ≤ stock →
      edit_product s pid sku name desc price stock th = Except.ok s' →
        stocksNonneg s') := by
  refine ⟨?_, ?_, ?_, ?_⟩
  · intro pid delta reason s' hs'
    rw [adjust_stock] at hs'
    by_cases hany : s.products.any (fun q => q.id = pid) = true
    · rw [if_pos hany] at hs'
      obtain rfl : _ = s' := Except.ok.inj hs'
      intro p hp
      obtain ⟨q, hq, rfl⟩ := List.mem_map.1 hp
      by_cases hid : q.id = pid
      · simp only [hid, if_true]
        exact le_max_left 0 _
      · simpa [hid] using h q hq
    · rw [if_neg hany] at hs'
      exact absurd hs' (by simp)
  · intro pid s' hs'
    rw [delete_product] at hs'
    by_cases hany : s.products.any (fun q => q.id = pid) = true
    · rw [if_pos hany] at hs'
      obtain rfl : _ = s' := Except.ok.inj hs'
      intro p hp
      exact h p (List.mem_of_mem_filter hp)
    · rw [if_neg hany] at hs'
      exact absurd hs' (by simp)
  · intro sku name desc price stock th s' hstock hs'
    rw [add_product] at hs'
    by_cases hany : s.products.any (fun q => q.sku = sku) = true
    · rw [if_pos hany] at hs'
      exact absurd hs' (by simp)
    · rw [if_neg hany] at hs'
      obtain rfl : _ = s' := Except.ok.inj hs'
      intro p hp
      rcases List.mem_append.1 hp with hp | hp
      · exact h p hp
      · obtain rfl : _ = p := (List.mem_singleton.1 hp).symm
        exact hstock
  · intro pid sku name desc price stock th s' hstock hs'
    rw [edit_product] at hs'
    by_cases hexists : s.products.any (fun q => q.id = pid) = true
    · rw [if_pos hexists] at hs'
      by_cases hdup : s.products.any (fun q => q.id ≠ pid ∧ q.sku = sku) = true
      · rw [if_pos hdup] at hs'
        exact absurd hs' (by simp)
      · rw [if_neg hdup] at hs'
        obtain rfl : _ = s' := Except.ok.inj hs'
        intro p hp
        obtain ⟨q, hq, rfl⟩ := List.mem_map.1 hp
        by_cases hid : q.id = pid
        · simpa [hid] using hstock
        · simpa [hid] using h q hq
    · rw [if_neg hexists] at hs'
      exact absurd hs' (by simp)

/-- C4 amended witness: the seeded store satisfies the invariant, and
adjusting product 1 by −100 yields a store that still satisfies it. -/
theorem stock_nonneg_preservation_witness :
    stocksNonneg initStore ∧
    stocksNonneg (afterOp initStore (adjust_stock initStore 1 (-100) "spill")) := by
  have h0 : stocksNonneg initStore := by unfold stocksNonneg; decide
  refine ⟨h0, ?_⟩
  exact (stock_nonneg_preservation initStore h0).1 1 (-100) "spill" _ rfl

/-- C7: creating a product whose SKU is already held by another product
fails with `DuplicateSkuError` and, after the session rollback, leaves the
store — in particular its product count — unchanged. -/
theorem add_product_duplicate_sku (s : Store) (sku name desc : String)
    (price : Rat) (stock th : Int) (h : ∃ q ∈ s.products, q.sku = sku) :
    add_product s sku name desc price stock th =
      Except.error StoreError.duplicateSku ∧
    afterOp s (add_product s sku name desc price stock th) = s ∧
    (afterOp s (add_product s sku name desc price stock th)).products.length =
      s.products.length := by
  obtain ⟨q, hq, hsku⟩ := h
  have hany : s.products.any (fun q => q.sku = sku) = true :=
    List.any_eq_true.2 ⟨q, hq, by simp [hsku]⟩
  have herr : add_product s sku name desc price stock th =
      Except.error StoreError.duplicateSku := by
    rw [add_product, if_pos hany]
  exact ⟨herr, by rw [herr]; rfl, by rw [herr]; rfl⟩

/-- C7 witness: re-using the seeded SKU "DBR-001" fails with
`DuplicateSkuError` and leaves the seeded store (3 products) unchanged. -/
theorem add_product_duplicate_sku_witness :
    add_product initStore "DBR-001" "Clone" "" 1 1 1 =
      Except.error StoreError.duplicateSku ∧
    afterOp initStore (add_product initStore "DBR-001" "Clone" "" 1 1 1) =
      initStore ∧
    (afterOp initStore
        (add_product initStore "DBR-001" "Clone" "" 1 1 1)).products.length =
      initStore.products.length :=
  add_product_duplicate_sku initStore "DBR-001" "Clone" "" 1 1 1 (by decide)

/-- C6: when the destination is not locked, `export_csv` reports
"First CSV export created!" exactly when no `last_inventory.csv` existed,
"No changes" exactly when the reference copy equals the just-written
snapshot byte for byte, "Changes detected" otherwise; and exporting twice
with the same product list yields "No changes" the second time. -/
theorem export_quick_compare (fs : FsState) (products : List Product)
    (h : fs.destLocked = false) :
    ((export_csv fs products).1 = ExportResult.firstExport ↔
      fs.lastCsv = none) ∧
    ((export_csv fs products).1 = ExportResult.noChanges ↔
      fs.lastCsv = some (snapshotRows products)) ∧
    ((export_csv fs products).1 = ExportResult.changesDetected ↔
      ∃ c, fs.lastCsv = some c ∧ snapshotRows products ≠ c) ∧
    (export_csv (export_csv fs products).2 products).1 =
      ExportResult.noChanges := by
  obtain ⟨inv, last, temp, exps, locked⟩ := fs
  simp only at h
  subst h
  cases last with
  | none => simp [export_csv]
  | some c =>
    by_cases hc : snapshotRows products = c
    · simp [export_csv, hc]
    · simp only [export_csv, if_neg (Bool.false_ne_true), if_neg hc]
      refine ⟨by simp, by simp [Ne.symm hc], by simp [hc], by simp⟩

/-- C6 witness: on a fresh file system the first export of the seeded
products reports `firstExport` and an immediate second export reports
`noChanges`. -/
theorem export_quick_compare_witness :
    (export_csv ⟨none, none, none, [], false⟩ initStore.products).1 =
      ExportResult.firstExport ∧
    (export_csv
        (export_csv ⟨none, none, none, [], false⟩ initStore.products).2
        initStore.products).1 = ExportResult.noChanges := by
  obtain ⟨h1, _, _, h4⟩ :=
    export_quick_compare ⟨none, none, none, [], false⟩ initStore.products rfl
  exact ⟨h1.2 rfl, h4⟩

/-- C8: when `os.replace` onto `inventory.csv` raises `PermissionError`
(destination held open by another process), `export_csv` reports the lock
error, the temporary file is removed, and `inventory.csv`,
`last_inventory.csv` and the historical snapshot directory are all left
exactly as they were. -/
theorem export_locked_preserves_state (fs : FsState)
    (products : List Product) (h : fs.destLocked = true) :
    (export_csv fs products).1 = ExportResult.snapshotLocked ∧
    (export_csv fs products).2.tempCsv = none ∧
    (export_csv fs products).2.inventoryCsv = fs.inventoryCsv ∧
    (export_csv fs products).2.lastCsv = fs.lastCsv ∧
    (export_csv fs products).2.exports = fs.exports := by
  simp [export_csv, h]

/-- C8 witness: a locked export from a state holding an old snapshot and
reference copy reports `snapshotLocked` and preserves all three. -/
theorem export_locked_preserves_state_witness :
    (export_csv ⟨some [["SKU", "Name", "Stock", "Price"]],
        some [["SKU", "Name", "Stock", "Price"]], none,
        [("20240101.csv", [["SKU", "Name", "Stock", "Price"]])], true⟩
      initStore.products).1 = ExportResult.snapshotLocked ∧
    (export_csv ⟨some [["SKU", "Name", "Stock", "Price"]],
        some [["SKU", "Name", "Stock", "Price"]], none,
        [("20240101.csv", [["SKU", "Name", "Stock", "Price"]])], true⟩
      initStore.products).2.lastCsv = some [["SKU", "Name", "Stock", "Price"]] := by
  obtain ⟨h1, _, _, h4, _⟩ :=
    export_locked_preserves_state ⟨some [["SKU", "Name", "Stock", "Price"]],
      some [["SKU", "Name", "Stock", "Price"]], none,
      [("20240101.csv", [["SKU", "Name", "Stock", "Price"]])], true⟩
      initStore.products rfl
  exact ⟨h1, h4⟩

/-- C3 (code bug): `export_csv` writes `inventory.csv` and the reference
copy `last_inventory.csv`, but never records anything in the `exports`
historical snapshot directory that `download_latest_csv` and
`compare_csv` read: the directory is unchanged by every export, and after
any number of exports starting from an empty directory the row-level diff
still sees no snapshots and emits the header only. -/
theorem export_records_no_snapshot (fs : FsState) (products : List Product) :
    (export_csv fs products).2.exports = fs.exports ∧
    (fs.exports = [] →
      download_latest_csv (export_csv fs products).2.exports =
        [compareHeader]) := by
  have hex : (export_csv fs products).2.exports = fs.exports := by
    obtain ⟨inv, last, temp, exps, locked⟩ := fs
    cases locked with
    | false => cases last <;> simp [export_csv]
    | true => simp [export_csv]
  refine ⟨hex, ?_⟩
  intro hempty
  rw [hex, hempty]
  rfl

/-- C3 witness: exporting from a fresh state with an empty `exports`
directory leaves it empty, and the diff output is just the header. -/
theorem export_records_no_snapshot_witness :
    (export_csv ⟨none, none, none, [], false⟩ initStore.products).2.exports = [] ∧
    download_latest_csv
        (export_csv ⟨none, none, none, [], false⟩ initStore.products).2.exports =
      [compareHeader] := by
  obtain ⟨h1, h2⟩ :=
    export_records_no_snapshot ⟨none, none, none, [], false⟩ initStore.products
  exact ⟨h1, h2 rfl⟩

theorem rowStatus_of_both_long (prev_row curr_row : List String)
    (h4p : 4 ≤ prev_row.length) (h4c : 4 ≤ curr_row.length) :
    rowStatus prev_row curr_row =
      if prev_row ≠ curr_row then
        if prev_row.getD 2 "" ≠ curr_row.getD 2 "" ∨
           prev_row.getD 3 "" ≠ curr_row.getD 3 "" then "CHANGED"
        else "UPDATED"
      else "UNCHANGED" := by
  rw [rowStatus, if_pos]
  exact ⟨List.ne_nil_of_length_pos (by omega),
    List.ne_nil_of_length_pos (by omega), h4p, h4c⟩

theorem rowStatus_blank_changed (curr_row : List String)
    (h4 : 4 ≤ curr_row.length)
    (hne : curr_row.getD 2 "" ≠ "" ∨ curr_row.getD 3 "" ≠ "") :
    rowStatus blankRow curr_row = "CHANGED" := by
  rw [rowStatus_of_both_long blankRow curr_row (by decide) h4]
  have hneq : blankRow ≠ curr_row := by
    intro h
    rcases hne with h2 | h3
    · exact h2 (by rw [← h]; rfl)
    · exact h3 (by rw [← h]; rfl)
  rw [if_pos hneq, if_pos]
  rcases hne with h2 | h3
  · exact Or.inl fun h => h2 h.symm
  · exact Or.inr fun h => h3 h.symm

/-- C1 counterexample: with two historical snapshots where the current
one has an extra row, the row missing from the previous snapshot is
paired against the all-empty placeholder — which counts as a present
4-field row — and classified `CHANGED`, not `NEW`. -/
theorem diff_missing_row_not_new :
    download_latest_csv
        [("2024-01-01.csv",
          [["SKU", "Name", "Stock", "Price"], ["A", "Apple", "5", "10"]]),
         ("2024-01-02.csv",
          [["SKU", "Name", "Stock", "Price"], ["A", "Apple", "5", "10"],
           ["C", "Cherry", "1", "30"]])] =
      [compareHeader,
       ["SKU", "Name", "Stock", "Price", "SKU", "Name", "Stock", "Price",
        "UNCHANGED"],
       ["A", "Apple", "5", "10", "A", "Apple", "5", "10", "UNCHANGED"],
       ["", "", "", "", "C", "Cherry", "1", "30", "CHANGED"]] := by
  decide

/-- C1 amended: each aligned pair in which both rows have at least four
fields — the all-empty placeholder substituted for a missing row
included — is classified `UNCHANGED` when the rows are equal, `CHANGED`
when field 2 (stock) or field 3 (price) differs, and `UPDATED` otherwise;
`NEW` and `REMOVED` arise only when the parsed row on one side is empty
or shorter than four fields (`NEW` when the current row has a non-empty
field, `REMOVED` when it has none and the previous row has one).  Each
output row of the diff is the aligned pair, missing rows replaced by the
placeholder, tagged with this status. -/
theorem diff_row_classification (prev_row curr_row : List String) :
    (4 ≤ prev_row.length → 4 ≤ curr_row.length →
      (prev_row = curr_row → rowStatus prev_row curr_row = "UNCHANGED") ∧
      (prev_row ≠ curr_row →
        ((prev_row.getD 2 "" ≠ curr_row.getD 2 "" ∨
          prev_row.getD 3 "" ≠ curr_row.getD 3 "") →
            rowStatus prev_row curr_row = "CHANGED") ∧
        (prev_row.getD 2 "" = curr_row.getD 2 "" →
         prev_row.getD 3 "" = curr_row.getD 3 "" →
            rowStatus prev_row curr_row = "UPDATED"))) ∧
    (¬(4 ≤ prev_row.length ∧ 4 ≤ curr_row.length) →
      ((∃ c ∈ curr_row, c ≠ "") → rowStatus prev_row curr_row = "NEW") ∧
      ((∀ c ∈ curr_row, c = "") → (∃ c ∈ prev_row, c ≠ "") →
        rowStatus prev_row curr_row = "REMOVED")) ∧
    (∀ previous_data current_data : List (List String), ∀ i : Nat,
      i < max previous_data.length current_data.length →
      (diffRows previous_data current_data).getD i [] =
        previous_data.getD i blankRow ++ current_data.getD i blankRow ++
          [rowStatus (previous_data.getD i blankRow)
            (current_data.getD i blankRow)]) := by
  refine ⟨?_, ?_, ?_⟩
  · intro h4p h4c
    rw [rowStatus_of_both_long prev_row curr_row h4p h4c]
    refine ⟨fun heq => by rw [if_neg (not_not.2 heq)], fun hne => ⟨?_, ?_⟩⟩
    · intro hd
      rw [if_pos hne, if_pos hd]
    · intro h2 h3
      rw [if_pos hne, if_neg (not_or.2 ⟨not_not.2 h2, not_not.2 h3⟩)]
  · intro hn
    have hnc : ¬(prev_row ≠ [] ∧ curr_row ≠ [] ∧
        4 ≤ prev_row.length ∧ 4 ≤ curr_row.length) :=
      fun hc => hn ⟨hc.2.2.1, hc.2.2.2⟩
    constructor
    · intro hex
      obtain ⟨c, hc, hcne⟩ := hex
      rw [rowStatus, if_neg hnc,
        if_pos (List.any_eq_true.2 ⟨c, hc, by simp [hcne]⟩)]
    · intro hall hex
      obtain ⟨c, hc, hcne⟩ := hex
      have hcurr : (curr_row.any fun c => decide (c ≠ "")) = false := by
        simp only [List.any_eq_false, decide_eq_true_eq, Decidable.not_not]
        exact hall
      rw [rowStatus, if_neg hnc,
        if_neg (by rw [hcurr]; exact Bool.false_ne_true),
        if_pos (List.any_eq_true.2 ⟨c, hc, by simp [hcne]⟩)]
  · intro pd cd i hi
    have hlen : i < (diffRows pd cd).length := by
      simpa [diffRows] using hi
    rw [List.getD_eq_getElem _ _ hlen]
    simp [diffRows]

/-- C1 amended witness: concrete pairs hitting the UNCHANGED, CHANGED and
NEW branches of the classification. -/
theorem diff_row_classification_witness :
    rowStatus ["A", "Apple", "5", "10"] ["A", "Apple", "5", "10"] =
      "UNCHANGED" ∧
    rowStatus ["", "", "", ""] ["C", "Cherry", "1", "30"] = "CHANGED" ∧
    rowStatus [] ["C", "Cherry", "1", "30"] = "NEW" :=
  ⟨((diff_row_classification _ _).1 (by decide) (by decide)).1 rfl,
   ((((diff_row_classification _ _).1 (by decide) (by decide)).2
      (by decide)).1 (by decide)),
   ((diff_row_classification _ _).2.1 (by decide)).1
     ⟨"C", by decide, by decide⟩⟩

/-- C2 counterexample: with exactly one historical snapshot, no output
row is `NEW`: every row — the header line included — is paired against
the all-empty placeholder and classified `CHANGED`. -/
theorem single_snapshot_rows_not_new :
    download_latest_csv
        [("2024-01-01.csv",
          [["SKU", "Name", "Stock", "Price"], ["A", "Apple", "5", "10"]])] =
      [compareHeader,
       ["", "", "", "", "SKU", "Name", "Stock", "Price", "CHANGED"],
       ["", "", "", "", "A", "Apple", "5", "10", "CHANGED"]] := by
  decide

/-- C2 amended: with no historical snapshots `download_latest_csv`
returns the header-only comparison; with exactly one, each of its rows is
paired against the all-empty placeholder and — since the placeholder
counts as a present four-field row — classified `CHANGED` (for rows with
at least four fields and a non-empty stock or price field), not `NEW`. -/
theorem diff_few_snapshots (files₁ files₂ : List (String × List (List String)))
    (f : String × List (List String))
    (h₁ : files₁.filter (fun g => strEndsWith g.1 ".csv") = [])
    (h₂ : files₂.filter (fun g => strEndsWith g.1 ".csv") = [f])
    (hrows : ∀ r ∈ f.2, 4 ≤ r.length ∧
      (r.getD 2 "" ≠ "" ∨ r.getD 3 "" ≠ "")) :
    download_latest_csv files₁ = [compareHeader] ∧
    ∀ row ∈ (download_latest_csv files₂).tail,
      row.getLast? = some "CHANGED" := by
  constructor
  · unfold download_latest_csv selectSnapshots
    rw [h₁]
    rfl
  · have hsel : selectSnapshots files₂ = (f.2, []) := by
      unfold selectSnapshots
      rw [h₂]
      rfl
    have hdl : download_latest_csv files₂ =
        compareHeader :: diffRows [] f.2 := by
      unfold download_latest_csv
      rw [hsel]
    intro row hrow
    rw [hdl] at hrow
    simp only [List.tail_cons] at hrow
    rw [diffRows] at hrow
    obtain ⟨i, hi, rfl⟩ := List.mem_map.1 hrow
    have hi' : i < f.2.length := by simpa using List.mem_range.1 hi
    have hgd : f.2.getD i blankRow = f.2[i] := List.getD_eq_getElem _ _ hi'
    obtain ⟨h4, hne⟩ := hrows f.2[i] (List.getElem_mem hi')
    rw [List.getLast?_concat]
    rw [show ([] : List (List String)).getD i blankRow = blankRow from rfl, hgd]
    exact congrArg some (rowStatus_blank_changed _ h4 hne)

/-- C2 amended witness: an empty directory yields the header-only
comparison and a directory holding one snapshot yields all-`CHANGED`
data rows. -/
theorem diff_few_snapshots_witness :
    download_latest_csv [] = [compareHeader] ∧
    ∀ row ∈ (download_latest_csv
        [("2024-01-01.csv",
          [["SKU", "Name", "Stock", "Price"], ["A", "Apple", "5", "10"]])]).tail,
      row.getLast? = some "CHANGED" :=
  diff_few_snapshots []
    [("2024-01-01.csv",
      [["SKU", "Name", "Stock", "Price"], ["A", "Apple", "5", "10"]])]
    ("2024-01-01.csv",
      [["SKU", "Name", "Stock", "Price"], ["A", "Apple", "5", "10"]])
    rfl (by decide) (by decide)

/-- C9: the row-level diff treats the snapshot files' header lines as
ordinary data rows: the output has exactly
`max (len previous) (len current)` data rows, header lines included, and
when both snapshots are present (both start with the header line) the
pair of headers at index 0 is classified `UNCHANGED` like any identical
row pair. -/
theorem diff_header_counted_as_row
    (previous_data current_data : List (List String)) :
    (diffRows previous_data current_data).length =
      max previous_data.length current_data.length ∧
    (previous_data.head? = some ["SKU", "Name", "Stock", "Price"] →
     current_data.head? = some ["SKU", "Name", "Stock", "Price"] →
      (diffRows previous_data current_data).head? =
        some (["SKU", "Name", "Stock", "Price"] ++
          ["SKU", "Name", "Stock", "Price"] ++ ["UNCHANGED"])) := by
  constructor
  · simp [diffRows]
  · intro hp hc
    cases previous_data with
    | nil => simp at hp
    | cons p0 pt =>
      cases current_data with
      | nil => simp at hc
      | cons c0 ct =>
        obtain rfl : p0 = ["SKU", "Name", "Stock", "Price"] := by
          simpa using hp
        obtain rfl : c0 = ["SKU", "Name", "Stock", "Price"] := by
          simpa using hc
        have hmax : max (pt.length + 1) (ct.length + 1) =
            max pt.length ct.length + 1 := Nat.succ_max_succ _ _
        rw [diffRows]
        simp only [List.length_cons]
        rw [hmax, List.range_succ_eq_map, List.map_cons, List.head?_cons]
        rfl

/-- C9 witness: two header-led snapshots of different lengths give
`max 2 3 = 3` output data rows with the header pair `UNCHANGED`. -/
theorem diff_header_counted_as_row_witness :
    (diffRows
        [["SKU", "Name", "Stock", "Price"], ["A", "Apple", "5", "10"]]
        [["SKU", "Name", "Stock", "Price"], ["A", "Apple", "5", "10"],
         ["C", "Cherry", "1", "30"]]).length = 3 ∧
    (diffRows
        [["SKU", "Name", "Stock", "Price"], ["A", "Apple", "5", "10"]]
        [["SKU", "Name", "Stock", "Price"], ["A", "Apple", "5", "10"],
         ["C", "Cherry", "1", "30"]]).head? =
      some (["SKU", "Name", "Stock", "Price"] ++
        ["SKU", "Name", "Stock", "Price"] ++ ["UNCHANGED"]) := by
  obtain ⟨h1, h2⟩ := diff_header_counted_as_row
    [["SKU", "Name", "Stock", "Price"], ["A", "Apple", "5", "10"]]
    [["SKU", "Name", "Stock", "Price"], ["A", "Apple", "5", "10"],
     ["C", "Cherry", "1", "30"]]
  exact ⟨h1, h2 rfl rfl⟩
